import Mathlib

/-!
# TraceLens — verification of spec claims against the source

Shallow embedding of the parts of `tracelens` (Python) that the claims
concern: the JSON cache (`cache.py`), the IP classifier
(`enrichment/ip_classifier.py`), the UDP and TCP probe engines
(`probe/udp.py`, `probe/tcp.py`), the tracer loop (`probe/tracer.py`),
the enrichment orchestrator (`cli.py:enrich_hop_sync`) and the
diagnostics pass (`diagnostics.py`).

Conventions of the embedding:
* Python floats (timestamps, RTTs, thresholds) are modelled as `ℚ`.
* `Optional[T]` is `Option T`; Python dict keys that may be present or
  absent are `Option` fields.
* Python truthiness on optional strings (`if not hop.ip`,
  `if result.responder_ip`) treats both `None` and `""` as falsy and is
  modelled explicitly.
* Stateful methods take the state and the current time as arguments and
  return the new state.
-/

namespace TraceLens

/-! ## models.py -/

/-- `models.ProbeResult`: result of a single probe. -/
structure ProbeResult where
  responder_ip : Option String := none
  rtt_ms : Option ℚ := none
  reached_target : Bool := false
deriving DecidableEq, Repr

/-- `models.HopResult`: result of probing a single hop. -/
structure HopResult where
  hop : ℕ
  ip : Option String := none
  rtts : List (Option ℚ) := []
  reached_target : Bool := false
deriving DecidableEq, Repr

/-- `models.GeoInfo`. -/
structure GeoInfo where
  country : Option String := none
  country_code : Option String := none
  city : Option String := none
  lat : Option ℚ := none
  lon : Option ℚ := none
deriving DecidableEq, Repr

/-- `enrichment.asn_lookup.ASNInfo` (dataclass with four optional fields). -/
structure ASNInfo where
  asn : Option String := none
  org : Option String := none
  pfx : Option String := none
  country : Option String := none
deriving DecidableEq, Repr

/-- `models.EnrichedHop`. -/
structure EnrichedHop where
  hop : ℕ
  ip : Option String := none
  rtts : List (Option ℚ) := []
  ptr : Option String := none
  asn : Option String := none
  org : Option String := none
  geo : Option GeoInfo := none
  ip_type : Option String := none
  tags : List String := []
  reached_target : Bool := false
deriving DecidableEq, Repr

/-- Python truthiness of an optional string: `None` and `""` are falsy. -/
def strFalsy : Option String → Bool
  | none => true
  | some s => s.isEmpty

/-- `rtt_avg` property shared by `HopResult`/`EnrichedHop`:
mean of the present RTTs, absent when none are present. -/
def rttAvgOf (rtts : List (Option ℚ)) : Option ℚ :=
  let valid := rtts.filterMap id
  if valid.isEmpty then none else some (valid.sum / valid.length)

def EnrichedHop.rtt_avg (h : EnrichedHop) : Option ℚ := rttAvgOf h.rtts

/-! ## cache.py

An entry is a JSON object.  Each optional key of the shape documented in
the spec is one `Option` field; for the ASN and Geo keys the stored value
may itself be `None` (the lookup dataclasses have optional fields), hence
`Option (Option _)`: the outer layer is key presence, the inner the value.
`_ts` is always written by `set`, so entries in the store always carry it
(and are therefore non-empty dicts, making Python's `if entry:` truthiness
test equivalent to presence). -/

structure CacheEntry where
  ts : ℚ
  asn : Option (Option String) := none
  org : Option (Option String) := none
  pfx : Option (Option String) := none
  asn_country : Option (Option String) := none
  geo_country : Option (Option String) := none
  geo_country_code : Option (Option String) := none
  geo_city : Option (Option String) := none
  geo_lat : Option (Option ℚ) := none
  geo_lon : Option (Option ℚ) := none
  ptr : Option String := none
deriving DecidableEq, Repr

/-- The in-memory cache: `_data` as an association list, the effective
TTL, and the dirty flag. -/
structure Cache where
  data : List (String × CacheEntry) := []
  ttl : ℚ
  dirty : Bool := false
deriving DecidableEq, Repr

/-- `Cache.DEFAULT_TTL = 7 * 24 * 3600` seconds. -/
def DEFAULT_TTL : ℚ := 604800

/-- `Cache.__init__`: `self.ttl = ttl or self.DEFAULT_TTL`.  Python's
`or` takes the right operand when the left is falsy, and both `None` and
`0` are falsy — so an explicit TTL of `0` is replaced by the default. -/
def initTtl : Option ℚ → ℚ
  | none => DEFAULT_TTL
  | some t => if t = 0 then DEFAULT_TTL else t

/-- A `Cache` as constructed by `Cache(ttl=...)` with no cache file on
disk (`_load` leaves `_data` empty). -/
def Cache.init (ttlArg : Option ℚ) : Cache :=
  { data := [], ttl := initTtl ttlArg, dirty := false }

/-- Association-list lookup, i.e. `self._data.get(ip)`. -/
def lookupEntry : List (String × CacheEntry) → String → Option CacheEntry
  | [], _ => none
  | (k, v) :: t, ip => if k = ip then some v else lookupEntry t ip

/-- Association-list update, i.e. `self._data[ip] = entry` (replace in
place, or append when the key is new — dict insertion order). -/
def storeEntry : List (String × CacheEntry) → String → CacheEntry →
    List (String × CacheEntry)
  | [], ip, e => [(ip, e)]
  | (k, v) :: t, ip, e =>
    if k = ip then (ip, e) :: t else (k, v) :: storeEntry t ip e

/-- `Cache._is_valid`: `time.time() - ts < self.ttl`. -/
def Cache.isValid (c : Cache) (e : CacheEntry) (now : ℚ) : Bool :=
  now - e.ts < c.ttl

/-- `Cache.get`: the entry iff present and non-expired. -/
def Cache.get (c : Cache) (ip : String) (now : ℚ) : Option CacheEntry :=
  match lookupEntry c.data ip with
  | some e => if c.isValid e now then some e else none
  | none => none

/-- `Cache.has`: `self.get(ip) is not None`. -/
def Cache.has (c : Cache) (ip : String) (now : ℚ) : Bool :=
  (c.get ip now).isSome

/-- `Cache.get_asn`: the ASN sub-record iff the entry is valid and the
`'asn'` key is present. -/
def Cache.getAsn (c : Cache) (ip : String) (now : ℚ) : Option ASNInfo :=
  match c.get ip now with
  | some e =>
    match e.asn with
    | some a =>
      some { asn := a
             org := e.org.join
             pfx := e.pfx.join
             country := e.asn_country.join }
    | none => none
  | none => none

/-- `Cache.get_geo`: the Geo sub-record iff the entry is valid and the
`'geo_country'` key is present. -/
def Cache.getGeo (c : Cache) (ip : String) (now : ℚ) : Option GeoInfo :=
  match c.get ip now with
  | some e =>
    match e.geo_country with
    | some gc =>
      some { country := gc
             country_code := e.geo_country_code.join
             city := e.geo_city.join
             lat := e.geo_lat.join
             lon := e.geo_lon.join }
    | none => none
  | none => none

/-- `Cache.get_ptr`: `entry.get('ptr')` of a valid entry. -/
def Cache.getPtr (c : Cache) (ip : String) (now : ℚ) : Option String :=
  match c.get ip now with
  | some e => e.ptr
  | none => none

/-- The merge performed by `Cache.set` on one entry: `_ts` is updated,
and each provided sub-record overwrites its keys, leaving the rest. -/
def CacheEntry.applySet (e : CacheEntry) (now : ℚ) (asn : Option ASNInfo)
    (geo : Option GeoInfo) (ptr : Option String) : CacheEntry :=
  let e1 := { e with ts := now }
  let e2 := match asn with
    | some a => { e1 with
                  asn := some a.asn
                  org := some a.org
                  pfx := some a.pfx
                  asn_country := some a.country }
    | none => e1
  let e3 := match geo with
    | some g => { e2 with
                  geo_country := some g.country
                  geo_country_code := some g.country_code
                  geo_city := some g.city
                  geo_lat := some g.lat
                  geo_lon := some g.lon }
    | none => e2
  match ptr with
  | some p => { e3 with ptr := some p }
  | none => e3

/-- The empty dict used by `self._data.get(ip, {})` when the IP has no
entry yet (`_ts` is assigned immediately afterwards). -/
def CacheEntry.empty : CacheEntry := { ts := 0 }

/-- `Cache.set`: merge into the existing entry, stamp `_ts`, mark dirty. -/
def Cache.set (c : Cache) (ip : String) (asn : Option ASNInfo)
    (geo : Option GeoInfo) (ptr : Option String) (now : ℚ) : Cache :=
  let base := (lookupEntry c.data ip).getD CacheEntry.empty
  { c with data := storeEntry c.data ip (base.applySet now asn geo ptr),
           dirty := true }

/-! ## enrichment/ip_classifier.py

`IPClassifier.classify` delegates the range tests to CPython's
`ipaddress.IPv4Address` properties.  The embedding reproduces the string
parser (`_ip_int_from_string`) and the address-range predicates of
CPython's `ipaddress` module (the list stable across CPython 3.9–3.12.3):
`is_private` is the union of the IANA special-purpose networks below,
considerably more than the three RFC1918 blocks. -/

inductive IPType where
  | PRIVATE | CGNAT | LOOPBACK | LINKLOCAL | MULTICAST | RESERVED
  | PUBLIC | UNKNOWN
deriving DecidableEq, Repr

/-- `IPType.value`: the string payload of the Python enum. -/
def IPType.value : IPType → String
  | .PRIVATE => "private"
  | .CGNAT => "cgnat"
  | .LOOPBACK => "loopback"
  | .LINKLOCAL => "linklocal"
  | .MULTICAST => "multicast"
  | .RESERVED => "reserved"
  | .PUBLIC => "public"
  | .UNKNOWN => "unknown"

/-- Python's `str.split('.')` on the character list: splitting on every
dot, keeping empty pieces. -/
def splitDots : List Char → List (List Char)
  | [] => [[]]
  | c :: cs =>
    if c = '.' then [] :: splitDots cs
    else
      match splitDots cs with
      | h :: t => (c :: h) :: t
      | [] => [[c]]

/-- One dotted-quad octet, as accepted by CPython's
`ipaddress._BaseV4._parse_octet`: ASCII digits only, at most 3 of them,
no leading zero, value at most 255. -/
def parseOctet (s : List Char) : Option ℕ :=
  match s with
  | [] => none
  | c :: cs =>
    if ¬ (c :: cs).all Char.isDigit then none
    else if (c :: cs).length > 3 then none
    else if c = '0' ∧ cs ≠ [] then none
    else
      let v := (c :: cs).foldl (fun a d => a * 10 + (d.toNat - 48)) 0
      if v > 255 then none else some v

/-- `ipaddress._BaseV4._ip_int_from_string`: split on `.`, exactly four
octets, packed big-endian into one number below `2^32`. -/
def parseIPv4 (s : String) : Option ℕ :=
  match (splitDots s.toList).mapM parseOctet with
  | some [a, b, c, d] => some (((a * 256 + b) * 256 + c) * 256 + d)
  | _ => none

/-- `IPv4Address.is_loopback`: 127.0.0.0/8. -/
def isLoopback (a : ℕ) : Prop := 0x7F000000 ≤ a ∧ a < 0x80000000

/-- `IPv4Address.is_link_local`: 169.254.0.0/16. -/
def isLinkLocal (a : ℕ) : Prop := 0xA9FE0000 ≤ a ∧ a < 0xA9FF0000

/-- `IPv4Address.is_multicast`: 224.0.0.0/4. -/
def isMulticast (a : ℕ) : Prop := 0xE0000000 ≤ a ∧ a < 0xF0000000

/-- `IPv4Address.is_private`: union of CPython's `_private_networks`
(0.0.0.0/8, 10.0.0.0/8, 127.0.0.0/8, 169.254.0.0/16, 172.16.0.0/12,
192.0.0.0/29, 192.0.0.170/31, 192.0.2.0/24, 192.168.0.0/16,
198.18.0.0/15, 198.51.100.0/24, 203.0.113.0/24, 240.0.0.0/4,
255.255.255.255/32 — the last is inside 240.0.0.0/4). -/
def pyPrivate (a : ℕ) : Prop :=
  a < 0x01000000 ∨
  (0x0A000000 ≤ a ∧ a < 0x0B000000) ∨
  (0x7F000000 ≤ a ∧ a < 0x80000000) ∨
  (0xA9FE0000 ≤ a ∧ a < 0xA9FF0000) ∨
  (0xAC100000 ≤ a ∧ a < 0xAC200000) ∨
  (0xC0000000 ≤ a ∧ a < 0xC0000008) ∨
  (0xC00000AA ≤ a ∧ a < 0xC00000AC) ∨
  (0xC0000200 ≤ a ∧ a < 0xC0000300) ∨
  (0xC0A80000 ≤ a ∧ a < 0xC0A90000) ∨
  (0xC6120000 ≤ a ∧ a < 0xC6140000) ∨
  (0xC6336400 ≤ a ∧ a < 0xC6336500) ∨
  (0xCB007100 ≤ a ∧ a < 0xCB007200) ∨
  (0xF0000000 ≤ a ∧ a < 0x100000000)

/-- `IPClassifier.CGNAT_NETWORK`: 100.64.0.0/10. -/
def isCgnat (a : ℕ) : Prop := 0x64400000 ≤ a ∧ a < 0x64800000

/-- `IPv4Address.is_reserved`: 240.0.0.0/4. -/
def isReserved (a : ℕ) : Prop := 0xF0000000 ≤ a ∧ a < 0x100000000

/-- `IPv4Address.is_global` (IPv4, CPython ≤ 3.12.3):
not in 100.64.0.0/10 and not private. -/
def isGlobal (a : ℕ) : Prop := ¬ isCgnat a ∧ ¬ pyPrivate a

instance : DecidablePred isLoopback := fun a => by
  unfold isLoopback; infer_instance
instance : DecidablePred isLinkLocal := fun a => by
  unfold isLinkLocal; infer_instance
instance : DecidablePred isMulticast := fun a => by
  unfold isMulticast; infer_instance
instance : DecidablePred pyPrivate := fun a => by
  unfold pyPrivate; infer_instance
instance : DecidablePred isCgnat := fun a => by
  unfold isCgnat; infer_instance
instance : DecidablePred isReserved := fun a => by
  unfold isReserved; infer_instance
instance : DecidablePred isGlobal := fun a => by
  unfold isGlobal; infer_instance

/-- The chain of range checks of `IPClassifier.classify`, in source
order, on a successfully parsed address. -/
def classifyAddr (a : ℕ) : IPType :=
  if isLoopback a then .LOOPBACK
  else if isLinkLocal a then .LINKLOCAL
  else if isMulticast a then .MULTICAST
  else if pyPrivate a then .PRIVATE
  else if isCgnat a then .CGNAT
  else if isReserved a then .RESERVED
  else if isGlobal a then .PUBLIC
  else .UNKNOWN

/-- `IPClassifier.classify`: `unknown` for falsy or unparsable input,
otherwise the chain of checks. -/
def classify (s : String) : IPType :=
  if s.isEmpty then .UNKNOWN
  else match parseIPv4 s with
  | none => .UNKNOWN
  | some a => classifyAddr a

/-- `IPClassifier.should_enrich`: enrichment only for public addresses. -/
def shouldEnrich (s : String) : Bool := classify s = .PUBLIC

/-- `IPClassifier.get_tag`: tag for non-public classes. -/
def getTag (s : String) : Option String :=
  match classify s with
  | .PRIVATE => some "private"
  | .CGNAT => some "cgnat"
  | .LOOPBACK => some "loopback"
  | .LINKLOCAL => some "linklocal"
  | .RESERVED => some "reserved"
  | _ => none

/-! ## probe/udp.py

The decision `UDPProbe.probe` takes on one parsed, accepted ICMP
datagram: `verified` is the outcome of `_verify_our_packet`, `none`
means the datagram is discarded and the receive loop continues. -/

/-- One iteration of the `UDPProbe.probe` receive loop on a datagram
with the given ICMP type/code, verification outcome, responder address
and measured RTT. -/
def udpHandleIcmp (icmpType icmpCode : ℕ) (verified : Bool)
    (responder : String) (rtt : ℚ) : Option ProbeResult :=
  if icmpType = 11 then
    if verified then
      some { responder_ip := some responder
             rtt_ms := some rtt
             reached_target := false }
    else none
  else if icmpType = 3 then
    if verified then
      some { responder_ip := some responder
             rtt_ms := some rtt
             reached_target := decide (icmpCode = 3) }
    else none
  else none

/-! ## probe/tcp.py -/

/-- The per-probe source-port update in `TCPProbe.probe`:
`self.src_port = (self.src_port + 1) % 65536` followed by
`if self.src_port < 32768: self.src_port = 32768`.  The result is the
port placed in the emitted SYN. -/
def tcpNextSrcPort (p : ℕ) : ℕ :=
  if (p + 1) % 65536 < 32768 then 32768 else (p + 1) % 65536

/-- The source port used by the `n`-th probe (1-based), starting from
the port drawn at construction. -/
def tcpSrcPortAfter (init n : ℕ) : ℕ := tcpNextSrcPort^[n] init

/-! ## probe/tracer.py -/

/-- The inner per-TTL loop of `Tracer.trace`: aggregate the
`probes_per_hop` probe results into a `HopResult`.  The responder is the
last truthy `responder_ip`, RTTs keep order, `reached` is the OR of
`reached_target`. -/
def aggregateHop (ttl : ℕ) (results : List ProbeResult) : HopResult :=
  { hop := ttl
    ip := results.foldl
      (fun acc r => if strFalsy r.responder_ip then acc else r.responder_ip)
      none
    rtts := results.map ProbeResult.rtt_ms
    reached_target := results.any ProbeResult.reached_target }

/-- The TTL loop of `Tracer.trace`, with the probe engine abstracted as
the per-TTL list of probe results `probes ttl`.  The loop body appends
the hop and breaks when `reached` is true. -/
def traceFrom (probes : ℕ → List ProbeResult) : ℕ → ℕ → List HopResult
  | _, 0 => []
  | ttl, fuel + 1 =>
    let hop := aggregateHop ttl (probes ttl)
    if hop.reached_target then [hop]
    else hop :: traceFrom probes (ttl + 1) fuel

/-- `Tracer.trace`: TTLs 1 .. max_hops. -/
def trace (probes : ℕ → List ProbeResult) (maxHops : ℕ) : List HopResult :=
  traceFrom probes 1 maxHops

/-! ## cli.py: enrich_hop_sync

The network lookups are abstracted as their outcomes: `fresh` holds what
`fetch_enrichment` would deliver for each category (`none` both for a
failed lookup and for the whole `try` block failing).  The function
returns the enriched hop together with the cache state after the
write-through `cache.set` calls. -/

structure LookupResults where
  asn : Option ASNInfo := none
  geo : Option GeoInfo := none
  ptr : Option String := none
deriving DecidableEq, Repr

/-- The final geo fallback of `enrich_hop_sync`: when `enriched.geo` is
still absent and the tracked ASN info carries a truthy country code,
synthesize a `GeoInfo` with only `country_code` set. -/
def geoFallback (e : EnrichedHop) (asnInfo : Option ASNInfo) : EnrichedHop :=
  if e.geo.isNone then
    match asnInfo with
    | some a =>
      match a.country with
      | some cc =>
        if cc.isEmpty then e
        else { e with geo := some { country_code := some cc } }
      | none => e
    | none => e
  else e

/-- The cached-data application block of `enrich_hop_sync`: the three
`if cached_…:` statements that copy cache reads into the hop. -/
def applyCached (e : EnrichedHop) (cachedAsn : Option ASNInfo)
    (cachedGeo : Option GeoInfo) (cachedPtr : Option String) :
    EnrichedHop :=
  let e := match cachedAsn with
    | some a => { e with asn := a.asn, org := a.org }
    | none => e
  let e := match cachedGeo with
    | some g => { e with geo := some g }
    | none => e
  if strFalsy cachedPtr then e else { e with ptr := cachedPtr }

/-- The fresh-results application block of `enrich_hop_sync`: the three
`if results.get(…):` statements, each merging the lookup result into
the hop and writing it through to the cache.  Returns the hop, the
ASN info tracked for the geo fallback, and the cache. -/
def applyFresh (ip : String) (e : EnrichedHop) (asnInfo : Option ASNInfo)
    (c : Cache) (rAsn : Option ASNInfo) (rGeo : Option GeoInfo)
    (rPtr : Option String) (now : ℚ) :
    EnrichedHop × Option ASNInfo × Cache :=
  let s1 : EnrichedHop × Option ASNInfo × Cache :=
    match rAsn with
    | some a =>
      ({ e with asn := a.asn, org := a.org }, some a,
       c.set ip (some a) none none now)
    | none => (e, asnInfo, c)
  match s1 with
  | (e, ai, c) =>
    let s2 : EnrichedHop × Cache :=
      match rGeo with
      | some g => ({ e with geo := some g }, c.set ip none (some g) none now)
      | none => (e, c)
    match s2 with
    | (e, c) =>
      if strFalsy rPtr then (e, ai, c)
      else ({ e with ptr := rPtr }, ai, c.set ip none none rPtr now)

/-- `cli.enrich_hop_sync`. -/
def enrichHopSync (hop : HopResult) (c : Cache)
    (enablePtr enableGeo : Bool) (fresh : LookupResults) (now : ℚ) :
    EnrichedHop × Cache :=
  let enriched : EnrichedHop :=
    { hop := hop.hop
      ip := hop.ip
      rtts := hop.rtts
      reached_target := hop.reached_target }
  match hop.ip with
  | none => (enriched, c)
  | some ip =>
    if ip.isEmpty then (enriched, c)
    else
      let enriched := { enriched with ip_type := some (classify ip).value }
      let enriched := match getTag ip with
        | some t => { enriched with tags := enriched.tags ++ [t] }
        | none => enriched
      if ¬ shouldEnrich ip then (enriched, c)
      else
        let cachedAsn := c.getAsn ip now
        let cachedGeo := if enableGeo then c.getGeo ip now else none
        let cachedPtr := if enablePtr then c.getPtr ip now else none
        let asnInfo := cachedAsn
        let enriched := applyCached enriched cachedAsn cachedGeo cachedPtr
        let needAsn := cachedAsn.isNone
        let needGeo := enableGeo && cachedGeo.isNone
        let needPtr := enablePtr && strFalsy cachedPtr
        if ¬needAsn ∧ ¬needGeo ∧ ¬needPtr then
          (geoFallback enriched asnInfo, c)
        else
          let rAsn := if needAsn then fresh.asn else none
          let rGeo := if needGeo then fresh.geo else none
          let rPtr := if needPtr then fresh.ptr else none
          match applyFresh ip enriched asnInfo c rAsn rGeo rPtr now with
          | (enriched, asnInfo, c) => (geoFallback enriched asnInfo, c)

/-! ## diagnostics.py -/

def LATENCY_JUMP_THRESHOLD : ℚ := 80
def INTERNATIONAL_EGRESS_THRESHOLD : ℚ := 120
def HIGH_JITTER_THRESHOLD : ℚ := 100
def SPIKE_MULTIPLIER : ℚ := 2
def SPIKE_ABSOLUTE_THRESHOLD : ℚ := 300

/-- The tag-appending idiom `if t not in hop.tags: hop.tags.append(t)`. -/
def addTag (tags : List String) (t : String) : List String :=
  if t ∈ tags then tags else tags ++ [t]

/-- `Diagnostics._tag_latency`, as a recursion over the hop list
carrying `prev_rtt` (the mean of the most recent hop with a present
mean). -/
def tagLatencyGo (prev : Option ℚ) : List EnrichedHop → List EnrichedHop
  | [] => []
  | h :: t =>
    let curr := h.rtt_avg
    let h' := match curr, prev with
      | some c, some p =>
        let d := c - p
        if INTERNATIONAL_EGRESS_THRESHOLD ≤ d then
          { h with tags := addTag (addTag h.tags "latency_jump")
                            "international_egress" }
        else if LATENCY_JUMP_THRESHOLD ≤ d then
          { h with tags := addTag h.tags "latency_jump" }
        else h
      | _, _ => h
    let prev' := match curr with
      | some c => some c
      | none => prev
    h' :: tagLatencyGo prev' t

def tagLatency (hops : List EnrichedHop) : List EnrichedHop :=
  tagLatencyGo none hops

/-- The mean RTT of the most recent hop in the list that has a present
mean, seeded with `init`; tracks the `prev_rtt` variable of the latency
passes across a prefix. -/
def lastAvgFrom (init : Option ℚ) (l : List EnrichedHop) : Option ℚ :=
  l.foldl
    (fun acc h => match h.rtt_avg with
      | some c => some c
      | none => acc)
    init

/-- Diagnosis issues, one constructor per message shape produced by
`Diagnostics._generate_issues` (the formatted strings carry exactly this
data). -/
inductive Issue where
  | targetUnreachable
  | icmpFiltering (shown : List ℕ) (more : ℕ)
  | latencyJump (hop : ℕ) (delta : ℚ) (international : Bool)
deriving DecidableEq, Repr

/-- `models.Diagnosis` with its dataclass defaults. -/
structure Diagnosis where
  reachable : Bool := false
  total_hops : ℕ := 0
  avg_rtt : Option ℚ := none
  filtered_hops : List ℕ := []
  latency_jumps : List (ℕ × ℚ) := []
  egress_hop : Option ℕ := none
  issues : List Issue := []
deriving DecidableEq, Repr

/-- Index of the last hop with `ip is not None`, `-1` when none. -/
def lastResponseIdx (hops : List EnrichedHop) : ℤ :=
  hops.enum.foldl
    (fun acc p => if p.2.ip.isSome then (p.1 : ℤ) else acc) (-1)

/-- `all(r is None for r in hop.rtts) if hop.rtts else True`. -/
def allTimeout (h : EnrichedHop) : Bool := h.rtts.all Option.isNone

/-- `Diagnostics._detect_filtering`: TTLs of the all-timeout, no-IP hops
strictly before the last responsive index. -/
def detectFilteredHops (hops : List EnrichedHop) : List ℕ :=
  hops.enum.filterMap
    (fun p =>
      if allTimeout p.2 ∧ p.2.ip = none ∧ (p.1 : ℤ) < lastResponseIdx hops
      then some p.2.hop else none)

/-- Python's `round(x, 1)` modelled on ℚ (Python rounds the underlying
float half-to-even; no claim depends on the tie behavior). -/
def round1 (q : ℚ) : ℚ := (round (10 * q) : ℤ) / 10

/-- `Diagnostics._detect_latency_jumps`: the `(hop, round(Δ,1))` pairs
with Δ at least the jump threshold, and the first hop whose Δ reaches
the egress threshold. -/
def detectLatency (hops : List EnrichedHop) :
    List (ℕ × ℚ) × Option ℕ :=
  let st := hops.foldl
    (fun (st : Option ℚ × List (ℕ × ℚ) × Option ℕ) h =>
      let (prev, jumps, eg) := st
      let curr := h.rtt_avg
      let (jumps, eg) := match curr, prev with
        | some c, some p =>
          let d := c - p
          if LATENCY_JUMP_THRESHOLD ≤ d then
            (jumps ++ [(h.hop, round1 d)],
             if INTERNATIONAL_EGRESS_THRESHOLD ≤ d ∧ eg = none
             then some h.hop else eg)
          else (jumps, eg)
        | _, _ => (jumps, eg)
      let prev := match curr with
        | some c => some c
        | none => prev
      (prev, jumps, eg))
    (none, [], none)
  (st.2.1, st.2.2)

/-- `Diagnostics._generate_issues`. -/
def generateIssues (d : Diagnosis) : Diagnosis :=
  let issues : List Issue :=
    if d.reachable then [] else [Issue.targetUnreachable]
  let issues :=
    if d.filtered_hops.isEmpty then issues
    else issues ++ [Issue.icmpFiltering (d.filtered_hops.take 5)
      (if d.filtered_hops.length > 5 then d.filtered_hops.length - 5 else 0)]
  let issues := issues ++ d.latency_jumps.map
    (fun p => Issue.latencyJump p.1 p.2
      (decide (INTERNATIONAL_EGRESS_THRESHOLD ≤ p.2)))
  { d with issues := issues }

/-- `Diagnostics.analyze` (thresholds at their defaults). -/
def analyze (hops : List EnrichedHop) : Diagnosis :=
  match hops.getLast? with
  | none => {}
  | some last =>
    let d : Diagnosis :=
      { reachable := last.reached_target, total_hops := hops.length }
    let d := match last.rtt_avg with
      | some v => if v = 0 then d else { d with avg_rtt := some v }
      | none => d
    let d := { d with filtered_hops := detectFilteredHops hops }
    let je := detectLatency hops
    let d := { d with latency_jumps := je.1, egress_hop := je.2 }
    generateIssues d

/-! ## Theorems -/

/-- **C1.**  The spec's TTL=0 policy says a cache constructed with TTL 0
never hits: `has` is always false and `get` always absent, though writes
occur.  The code's `Cache.__init__` computes `self.ttl = ttl or
self.DEFAULT_TTL`, and Python's `or` replaces the falsy `0` with the
7-day default — so after a `set`, reads hit.  This theorem evaluates the
embedded code at the failing input: a cache built with TTL 0 ends up
with a 604800-second TTL, and immediately after `set("1.2.3.4", …)`
both `has` and `get` succeed. -/
theorem c1_ttl_zero_cache_still_hits :
    (Cache.init (some 0)).ttl = 604800 ∧
    ((Cache.init (some 0)).set "1.2.3.4" (some { asn := some "AS15169" })
        none none 0).has "1.2.3.4" 0 = true ∧
    ((Cache.init (some 0)).set "1.2.3.4" (some { asn := some "AS15169" })
        none none 0).get "1.2.3.4" 0 ≠ none := by
  refine ⟨by simp [Cache.init, initTtl, DEFAULT_TTL], ?_, ?_⟩ <;>
    simp [Cache.has, Cache.get, Cache.set, Cache.init, initTtl, DEFAULT_TTL,
      lookupEntry, storeEntry, Cache.isValid, CacheEntry.applySet,
      CacheEntry.empty]

/-- **C2** (counterexample).  A verified Destination-Unreachable with
code 1 (Host Unreachable) is accepted by the UDP engine with
`reached_target = false`, where the claim demands `terminal = true` for
every non-Port-Unreachable code. -/
theorem c2_counterexample :
    udpHandleIcmp 3 1 true "203.0.113.7" 5 =
      some { responder_ip := some "203.0.113.7", rtt_ms := some 5,
             reached_target := false } := rfl

/-- **C2** (amended).  Every datagram the UDP engine handles is either
discarded or returned with the responder and RTT filled in and
`terminal` true exactly when it is a Destination-Unreachable (type 3)
with code Port-Unreachable (3); in particular Time-Exceeded and
Destination-Unreachable with any other code yield `terminal = false`. -/
theorem c2_udp_terminal_iff_port_unreachable (ty code : ℕ)
    (verified : Bool) (resp : String) (rtt : ℚ) :
    udpHandleIcmp ty code verified resp rtt = none ∨
    udpHandleIcmp ty code verified resp rtt =
      some { responder_ip := some resp, rtt_ms := some rtt,
             reached_target := decide (ty = 3) && decide (code = 3) } := by
  unfold udpHandleIcmp
  by_cases h11 : ty = 11
  · subst h11
    cases verified
    · left; simp
    · right; simp
  · by_cases h3 : ty = 3
    · subst h3
      cases verified
      · left; simp [h11]
      · right; simp [h11]
    · left; simp [h11, h3]

/-- Step lemma for the TCP source-port update: the updated port always
lands in 32768–65535. -/
theorem tcpNextSrcPort_mem (p : ℕ) :
    32768 ≤ tcpNextSrcPort p ∧ tcpNextSrcPort p ≤ 65535 := by
  unfold tcpNextSrcPort
  split <;> omega

/-- **C4** (counterexample).  The claim keeps the source port within
32768–60999 after every per-probe increment.  Starting from the valid
initial port 60999, the first probe already uses port 61000. -/
theorem c4_counterexample :
    32768 ≤ 60999 ∧ 60999 ≤ 60999 ∧ tcpSrcPortAfter 60999 1 = 61000 ∧
      ¬ tcpSrcPortAfter 60999 1 ≤ 60999 := by
  decide

/-- **C4** (amended).  The port drawn at construction lies in
32768–60999, and after any number of per-probe increments the port used
for the emitted SYN lies in 32768–65535 (the increment wraps from 65535
back to 32768, passing through 61000–65535 on the way). -/
theorem c4_src_port_bounded (init n : ℕ) (h1 : 32768 ≤ init)
    (h2 : init ≤ 60999) :
    32768 ≤ tcpSrcPortAfter init n ∧ tcpSrcPortAfter init n ≤ 65535 := by
  induction n with
  | zero =>
    simp only [tcpSrcPortAfter, Function.iterate_zero_apply]
    exact ⟨h1, by omega⟩
  | succ n ih =>
    simp only [tcpSrcPortAfter, Function.iterate_succ_apply'] at ih ⊢
    exact tcpNextSrcPort_mem _

/-- **C4** witness: the amended bound evaluated at a concrete start and
probe count. -/
theorem c4_src_port_bounded_witness :
    32768 ≤ tcpSrcPortAfter 33000 5 ∧ tcpSrcPortAfter 33000 5 ≤ 65535 :=
  c4_src_port_bounded 33000 5 (by decide) (by decide)

/-- The private set the claim asserts: exactly the three RFC1918
blocks 10.0.0.0/8, 172.16.0.0/12, 192.168.0.0/16. -/
def rfc1918 (a : ℕ) : Prop :=
  (0x0A000000 ≤ a ∧ a < 0x0B000000) ∨
  (0xAC100000 ≤ a ∧ a < 0xAC200000) ∨
  (0xC0A80000 ≤ a ∧ a < 0xC0A90000)

instance : DecidablePred rfc1918 := fun a => by
  unfold rfc1918; infer_instance

/-- **C3** (counterexample).  The claim says `classify` returns
`private` exactly on the RFC1918 blocks.  The code delegates to
CPython's `is_private`, which also covers 192.0.2.0/24 (TEST-NET-1)
among others: `classify("192.0.2.1")` returns `private` although
192.0.2.1 (= 3221225985) is in none of the three RFC1918 blocks. -/
theorem c3_counterexample :
    classify "192.0.2.1" = IPType.PRIVATE ∧
    parseIPv4 "192.0.2.1" = some 3221225985 ∧
    ¬ rfc1918 3221225985 := by
  refine ⟨by decide, by decide, by decide⟩

/-- The classification rule the code actually implements, on a parsed
address: the same ordered chain, except that the `private` step tests
CPython's full `is_private` set (not just RFC1918), the `reserved`
branch is unreachable (240.0.0.0/4 is already in the private set), and
everything that survives the earlier checks is `public`. -/
def classifyAddrAmended (a : ℕ) : IPType :=
  if isLoopback a then .LOOPBACK
  else if isLinkLocal a then .LINKLOCAL
  else if isMulticast a then .MULTICAST
  else if pyPrivate a then .PRIVATE
  else if isCgnat a then .CGNAT
  else .PUBLIC

/-- `classify` as the amended claim states it. -/
def classifyAmended (s : String) : IPType :=
  if s.isEmpty then .UNKNOWN
  else match parseIPv4 s with
  | none => .UNKNOWN
  | some a => classifyAddrAmended a

/-- On parsed addresses the code's chain equals the amended chain. -/
theorem classifyAddr_eq_amended (a : ℕ) :
    classifyAddr a = classifyAddrAmended a := by
  unfold classifyAddr classifyAddrAmended
  split_ifs with h1 h2 h3 h4 h5 h6 h7
  any_goals rfl
  · exfalso
    unfold isReserved at h6
    unfold pyPrivate at h4
    omega
  · exfalso
    unfold isGlobal at h7
    exact h7 ⟨h5, h4⟩

/-- **C3** (amended).  `classify` applies the rules in order loopback
(127.0.0.0/8), link-local (169.254.0.0/16), multicast (224.0.0.0/4),
private per CPython's `is_private` (RFC1918 together with 0.0.0.0/8,
192.0.0.0/29, 192.0.0.170/31, 192.0.2.0/24, 198.18.0.0/15,
198.51.100.0/24, 203.0.113.0/24, 240.0.0.0/4, 255.255.255.255/32),
CGNAT (100.64.0.0/10), then public; the reserved branch never fires,
and every string that is not a valid IPv4 address yields unknown. -/
theorem c3_classify_rules (s : String) : classify s = classifyAmended s := by
  unfold classify classifyAmended
  split
  · rfl
  · cases parseIPv4 s
    · rfl
    · exact classifyAddr_eq_amended _

/-- `applySet` stamps the write time into `_ts`. -/
theorem applySet_ts (e : CacheEntry) (t : ℚ) (asn : Option ASNInfo)
    (geo : Option GeoInfo) (ptr : Option String) :
    (e.applySet t asn geo ptr).ts = t := by
  unfold CacheEntry.applySet
  cases asn <;> cases geo <;> cases ptr <;> rfl

/-- `applySet` stores the four ASN keys when an ASN record is given. -/
theorem applySet_asn_fields (e : CacheEntry) (t : ℚ) (a : ASNInfo)
    (geo : Option GeoInfo) (ptr : Option String) :
    (e.applySet t (some a) geo ptr).asn = some a.asn ∧
    (e.applySet t (some a) geo ptr).org = some a.org ∧
    (e.applySet t (some a) geo ptr).pfx = some a.pfx ∧
    (e.applySet t (some a) geo ptr).asn_country = some a.country := by
  unfold CacheEntry.applySet
  cases geo <;> cases ptr <;> exact ⟨rfl, rfl, rfl, rfl⟩

/-- `applySet` stores the five Geo keys when a Geo record is given. -/
theorem applySet_geo_fields (e : CacheEntry) (t : ℚ) (asn : Option ASNInfo)
    (g : GeoInfo) (ptr : Option String) :
    (e.applySet t asn (some g) ptr).geo_country = some g.country ∧
    (e.applySet t asn (some g) ptr).geo_country_code = some g.country_code ∧
    (e.applySet t asn (some g) ptr).geo_city = some g.city ∧
    (e.applySet t asn (some g) ptr).geo_lat = some g.lat ∧
    (e.applySet t asn (some g) ptr).geo_lon = some g.lon := by
  unfold CacheEntry.applySet
  cases asn <;> cases ptr <;> exact ⟨rfl, rfl, rfl, rfl, rfl⟩

/-- `applySet` stores the PTR key when a hostname is given. -/
theorem applySet_ptr_field (e : CacheEntry) (t : ℚ) (asn : Option ASNInfo)
    (geo : Option GeoInfo) (p : String) :
    (e.applySet t asn geo (some p)).ptr = some p := by
  unfold CacheEntry.applySet
  cases asn <;> cases geo <;> rfl

/-- Looking up the key just stored finds the stored entry. -/
theorem lookupEntry_storeEntry (d : List (String × CacheEntry))
    (ip : String) (e : CacheEntry) :
    lookupEntry (storeEntry d ip e) ip = some e := by
  induction d with
  | nil => simp [storeEntry, lookupEntry]
  | cons p t ih =>
    obtain ⟨k, v⟩ := p
    by_cases hk : k = ip
    · simp [storeEntry, lookupEntry, hk]
    · simp [storeEntry, lookupEntry, hk, ih]

/-- `get` after `set` of the same IP: the merged entry while the entry
is fresh, nothing once it has expired. -/
theorem get_set_same (c : Cache) (ip : String) (asn : Option ASNInfo)
    (geo : Option GeoInfo) (ptr : Option String) (t now : ℚ) :
    (c.set ip asn geo ptr t).get ip now =
      if now - t < c.ttl
      then some (((lookupEntry c.data ip).getD CacheEntry.empty).applySet
        t asn geo ptr)
      else none := by
  unfold Cache.set Cache.get
  simp only [lookupEntry_storeEntry, Cache.isValid, applySet_ts,
    decide_eq_true_eq]

/-- **C6.**  Cache round-trip and expiry: after `set(ip, x)` at time
`t`, `get(ip)` at any time less than TTL later returns an entry whose
ASN/Geo/PTR keys hold exactly the sub-records of `x`, and `get(ip)` at
time TTL + ε later (ε > 0) returns absent. -/
theorem c6_cache_roundtrip_expiry (c : Cache) (ip : String)
    (asn : Option ASNInfo) (geo : Option GeoInfo) (ptr : Option String)
    (t tr te : ℚ) :
    (tr - t < c.ttl →
      ∃ e, (c.set ip asn geo ptr t).get ip tr = some e ∧
        (∀ a, asn = some a → e.asn = some a.asn ∧ e.org = some a.org ∧
          e.pfx = some a.pfx ∧ e.asn_country = some a.country) ∧
        (∀ g, geo = some g → e.geo_country = some g.country ∧
          e.geo_country_code = some g.country_code ∧
          e.geo_city = some g.city ∧ e.geo_lat = some g.lat ∧
          e.geo_lon = some g.lon) ∧
        (∀ p, ptr = some p → e.ptr = some p)) ∧
    (∀ ε : ℚ, 0 < ε → te - t = c.ttl + ε →
      (c.set ip asn geo ptr t).get ip te = none) := by
  constructor
  · intro hlt
    refine ⟨((lookupEntry c.data ip).getD CacheEntry.empty).applySet
      t asn geo ptr, ?_, ?_, ?_, ?_⟩
    · rw [get_set_same, if_pos hlt]
    · rintro a rfl
      exact applySet_asn_fields _ _ _ _ _
    · rintro g rfl
      exact applySet_geo_fields _ _ _ _ _
    · rintro p rfl
      exact applySet_ptr_field _ _ _ _ _
  · intro ε hε heq
    rw [get_set_same, if_neg]
    rw [heq]
    linarith

/-- **C6** witness: a concrete write at time 100 read back at 200
(within the default 7-day TTL) and at 604901 (TTL + 1 later). -/
theorem c6_cache_roundtrip_expiry_witness :
    (∃ e, ((Cache.init none).set "1.1.1.1" (some { asn := some "AS13335" })
        none (some "one.one.one.one") 100).get "1.1.1.1" 200 = some e ∧
        (∀ a, (some { asn := some "AS13335" } : Option ASNInfo) = some a →
          e.asn = some a.asn ∧ e.org = some a.org ∧
          e.pfx = some a.pfx ∧ e.asn_country = some a.country) ∧
        (∀ g, (none : Option GeoInfo) = some g →
          e.geo_country = some g.country ∧
          e.geo_country_code = some g.country_code ∧
          e.geo_city = some g.city ∧ e.geo_lat = some g.lat ∧
          e.geo_lon = some g.lon) ∧
        (∀ p, (some "one.one.one.one" : Option String) = some p →
          e.ptr = some p)) ∧
    ((Cache.init none).set "1.1.1.1" (some { asn := some "AS13335" })
        none (some "one.one.one.one") 100).get "1.1.1.1" 604901 = none :=
  ⟨(c6_cache_roundtrip_expiry (Cache.init none) "1.1.1.1"
      (some { asn := some "AS13335" }) none (some "one.one.one.one")
      100 200 604901).1
    (by norm_num [Cache.init, initTtl, DEFAULT_TTL]),
   (c6_cache_roundtrip_expiry (Cache.init none) "1.1.1.1"
      (some { asn := some "AS13335" }) none (some "one.one.one.one")
      100 200 604901).2 1 one_pos
    (by norm_num [Cache.init, initTtl, DEFAULT_TTL])⟩

/-- `f` carries the same probe data (hop number, IP, RTTs, reached
flag) as `e`. -/
def sameProbe (e f : EnrichedHop) : Prop :=
  f.hop = e.hop ∧ f.ip = e.ip ∧ f.rtts = e.rtts ∧
  f.reached_target = e.reached_target

theorem sameProbe_trans {a b c : EnrichedHop} (h1 : sameProbe a b)
    (h2 : sameProbe b c) : sameProbe a c :=
  ⟨h2.1.trans h1.1, h2.2.1.trans h1.2.1, h2.2.2.1.trans h1.2.2.1,
   h2.2.2.2.trans h1.2.2.2⟩

/-- `geoFallback` only ever touches the `geo` field. -/
theorem geoFallback_sameProbe (e : EnrichedHop) (ai : Option ASNInfo) :
    sameProbe e (geoFallback e ai) := by
  unfold geoFallback sameProbe
  repeat' split
  all_goals exact ⟨rfl, rfl, rfl, rfl⟩

/-- Copying cache reads into the hop leaves the probe data alone. -/
theorem applyCached_sameProbe (e : EnrichedHop) (a : Option ASNInfo)
    (g : Option GeoInfo) (p : Option String) :
    sameProbe e (applyCached e a g p) := by
  unfold applyCached sameProbe
  repeat' (first | split | dsimp only)
  all_goals exact ⟨rfl, rfl, rfl, rfl⟩

/-- Merging fresh lookup results into the hop leaves the probe data
alone. -/
theorem applyFresh_sameProbe (ip : String) (e : EnrichedHop)
    (ai : Option ASNInfo) (c : Cache) (ra : Option ASNInfo)
    (rg : Option GeoInfo) (rp : Option String) (now : ℚ) :
    sameProbe e (applyFresh ip e ai c ra rg rp now).1 := by
  unfold applyFresh sameProbe
  repeat' (first | split | dsimp only)
  all_goals exact ⟨rfl, rfl, rfl, rfl⟩

/-- The fully-cached return path (apply cached reads, geo fallback)
preserves probe data. -/
theorem cached_path_sameProbe {x e : EnrichedHop} (h : sameProbe x e)
    (a : Option ASNInfo) (g : Option GeoInfo) (p : Option String)
    (ai : Option ASNInfo) :
    sameProbe x (geoFallback (applyCached e a g p) ai) :=
  sameProbe_trans (sameProbe_trans h (applyCached_sameProbe e a g p))
    (geoFallback_sameProbe _ _)

/-- The fresh-lookup return path (merge results, cache writes, geo
fallback) preserves probe data. -/
theorem fresh_path_sameProbe {x e : EnrichedHop} (h : sameProbe x e)
    (ip : String) (ai : Option ASNInfo) (c : Cache) (ra : Option ASNInfo)
    (rg : Option GeoInfo) (rp : Option String) (now : ℚ)
    (ai2 : Option ASNInfo) :
    sameProbe x (geoFallback (applyFresh ip e ai c ra rg rp now).1 ai2) :=
  sameProbe_trans
    (sameProbe_trans h (applyFresh_sameProbe ip e ai c ra rg rp now))
    (geoFallback_sameProbe _ _)

/-- **C9.**  Enrichment never alters the probe data of a hop: whatever
the cache contents, the enable flags, the lookup outcomes and the
current time, the `EnrichedHop` produced by `enrich_hop_sync` keeps the
input's hop number, IP, RTT list and reached flag. -/
theorem c9_enrich_preserves_probe_data (hop : HopResult) (c : Cache)
    (enablePtr enableGeo : Bool) (fresh : LookupResults) (now : ℚ) :
    (enrichHopSync hop c enablePtr enableGeo fresh now).1.hop = hop.hop ∧
    (enrichHopSync hop c enablePtr enableGeo fresh now).1.ip = hop.ip ∧
    (enrichHopSync hop c enablePtr enableGeo fresh now).1.rtts = hop.rtts ∧
    (enrichHopSync hop c enablePtr enableGeo fresh now).1.reached_target
      = hop.reached_target := by
  have main : sameProbe
      { hop := hop.hop, ip := hop.ip, rtts := hop.rtts,
        reached_target := hop.reached_target }
      (enrichHopSync hop c enablePtr enableGeo fresh now).1 := by
    unfold enrichHopSync
    cases hop.ip with
    | none => exact ⟨rfl, rfl, rfl, rfl⟩
    | some ip =>
      dsimp only
      repeat' split
      all_goals
        first
        | exact cached_path_sameProbe ⟨rfl, rfl, rfl, rfl⟩ _ _ _ _
        | (refine fresh_path_sameProbe ?_ _ _ _ _ _ _ _ _
           refine sameProbe_trans ?_ (applyCached_sameProbe _ _ _ _)
           exact ⟨rfl, rfl, rfl, rfl⟩)
        | exact ⟨rfl, rfl, rfl, rfl⟩
  exact ⟨main.1, main.2.1, main.2.2.1, main.2.2.2⟩

/-- An unreachable diagnosis always carries the target-unreachable
issue (it is the first entry `_generate_issues` emits). -/
theorem mem_generateIssues_unreachable (d : Diagnosis)
    (h : d.reachable = false) :
    Issue.targetUnreachable ∈ (generateIssues d).issues := by
  unfold generateIssues
  simp only [h, Bool.false_eq_true, if_false, List.mem_append]
  left
  split <;> simp

/-- **C10.**  Analyzing an empty hop sequence returns the default
diagnosis — unreachable, zero hops, absent mean, empty lists, absent
egress hop and, in particular, an empty issue list; by contrast any
non-empty sequence whose last hop is not reached does get the
target-unreachable issue. -/
theorem c10_analyze_empty :
    analyze [] = { reachable := false, total_hops := 0, avg_rtt := none,
                   filtered_hops := [], latency_jumps := [],
                   egress_hop := none, issues := [] } ∧
    ∀ (hops : List EnrichedHop) (h : EnrichedHop),
      hops.getLast? = some h → h.reached_target = false →
      Issue.targetUnreachable ∈ (analyze hops).issues := by
  refine ⟨rfl, ?_⟩
  intro hops h hlast hreach
  unfold analyze
  rw [hlast]
  apply mem_generateIssues_unreachable
  cases h.rtt_avg with
  | none => simpa using hreach
  | some v => by_cases hv : v = 0 <;> simp [hv, hreach]

/-- **C10** witness: the second half applied to a one-hop unreachable
trace. -/
theorem c10_analyze_empty_witness :
    Issue.targetUnreachable ∈
      (analyze [{ hop := 1, ip := none, rtts := [none, none, none],
                  reached_target := false }]).issues :=
  c10_analyze_empty.2
    [{ hop := 1, ip := none, rtts := [none, none, none],
       reached_target := false }]
    { hop := 1, ip := none, rtts := [none, none, none],
      reached_target := false } rfl rfl

/-- In the tracer loop, a hop whose `reached` flag is set is the last
element produced (the loop breaks right after appending it). -/
theorem traceFrom_reached_last (probes : ℕ → List ProbeResult)
    (fuel : ℕ) : ∀ ttl i h,
    (traceFrom probes ttl fuel).get? i = some h →
    h.reached_target = true →
    i = (traceFrom probes ttl fuel).length - 1 := by
  induction fuel with
  | zero =>
    intro ttl i h hget hr
    simp [traceFrom] at hget
  | succ fuel ih =>
    intro ttl i h hget hr
    unfold traceFrom at hget ⊢
    by_cases hreach : (aggregateHop ttl (probes ttl)).reached_target
    · rw [if_pos hreach] at hget ⊢
      cases i with
      | zero => simp
      | succ j => simp [List.get?] at hget
    · rw [if_neg hreach] at hget ⊢
      cases i with
      | zero =>
        simp only [List.get?, Option.some.injEq] at hget
        rw [← hget] at hr
        exact absurd hr hreach
      | succ j =>
        simp only [List.get?] at hget
        have hj := ih (ttl + 1) j h hget hr
        have hlt : j < (traceFrom probes (ttl + 1) fuel).length := by
          by_contra hc
          push_neg at hc
          rw [List.get?_eq_none.mpr hc] at hget
          exact Option.noConfusion hget
        simp only [List.length_cons]
        omega

/-- **C8.**  In the list of hops returned by the tracer, any hop with
`reached = true` is the last element: probing stops at the first
terminal hop. -/
theorem c8_reached_is_last (probes : ℕ → List ProbeResult)
    (maxHops i : ℕ) (h : HopResult)
    (hget : (trace probes maxHops).get? i = some h)
    (hr : h.reached_target = true) :
    i = (trace probes maxHops).length - 1 :=
  traceFrom_reached_last probes maxHops 1 i h hget hr

/-- A concrete probe engine for the tracer witness: one probe per hop,
always answered by 10.0.0.1, terminal at TTL 2. -/
def probeEnvW (ttl : ℕ) : List ProbeResult :=
  [{ responder_ip := some "10.0.0.1", rtt_ms := some 1,
     reached_target := ttl == 2 }]

/-- **C8** witness: with the probe above, the terminal hop sits at
index 1 of the 2-element trace. -/
theorem c8_reached_is_last_witness :
    1 = (trace probeEnvW 3).length - 1 :=
  c8_reached_is_last probeEnvW 3 1
    { hop := 2, ip := some "10.0.0.1", rtts := [some 1],
      reached_target := true } (by decide) rfl

theorem mem_addTag_self (tags : List String) (t : String) :
    t ∈ addTag tags t := by
  unfold addTag
  split
  · assumption
  · simp

theorem mem_addTag_of_mem {x : String} (tags : List String) (t : String)
    (h : x ∈ tags) : x ∈ addTag tags t := by
  unfold addTag
  split
  · exact h
  · simp [h]

theorem mem_addTag_iff {x : String} (tags : List String) (t : String) :
    x ∈ addTag tags t ↔ x ∈ tags ∨ x = t := by
  unfold addTag
  split
  · rename_i ht
    constructor
    · exact Or.inl
    · rintro (hx | rfl)
      · exact hx
      · exact ht
  · simp

/-- Definitional unfolding of one `_tag_latency` step. -/
theorem tagLatencyGo_cons (prev : Option ℚ) (h : EnrichedHop)
    (t : List EnrichedHop) :
    tagLatencyGo prev (h :: t) =
      (match h.rtt_avg, prev with
        | some c, some p =>
          if INTERNATIONAL_EGRESS_THRESHOLD ≤ c - p then
            { h with tags := addTag (addTag h.tags "latency_jump")
                              "international_egress" }
          else if LATENCY_JUMP_THRESHOLD ≤ c - p then
            { h with tags := addTag h.tags "latency_jump" }
          else h
        | _, _ => h) ::
      tagLatencyGo
        (match h.rtt_avg with
          | some c => some c
          | none => prev) t := rfl

/-- The full specification of one `_tag_latency` walk starting from an
arbitrary `prev_rtt` state: at every index, the tags added are
determined by Δ = current mean − the most recent earlier present mean
(seeded by `prev`), and the egress tag never appears without the jump
tag. -/
theorem tagLatencyGo_spec (hops : List EnrichedHop) :
    ∀ (prev : Option ℚ) (i : ℕ) (hi ho : EnrichedHop),
    (∀ h ∈ hops, "latency_jump" ∉ h.tags ∧
      "international_egress" ∉ h.tags) →
    hops.get? i = some hi →
    (tagLatencyGo prev hops).get? i = some ho →
    ((∀ c p, hi.rtt_avg = some c →
      lastAvgFrom prev (hops.take i) = some p →
      (INTERNATIONAL_EGRESS_THRESHOLD ≤ c - p →
        "latency_jump" ∈ ho.tags ∧ "international_egress" ∈ ho.tags) ∧
      (LATENCY_JUMP_THRESHOLD ≤ c - p →
        c - p < INTERNATIONAL_EGRESS_THRESHOLD →
        "latency_jump" ∈ ho.tags ∧ "international_egress" ∉ ho.tags)) ∧
    ("international_egress" ∈ ho.tags → "latency_jump" ∈ ho.tags)) := by
  induction hops with
  | nil =>
    intro prev i hi ho _ hin _
    simp [List.get?] at hin
  | cons h t ihp =>
    intro prev i hi ho hclean hin hout
    have hcleanh := hclean h (List.mem_cons_self h t)
    have hcleant : ∀ x ∈ t, "latency_jump" ∉ x.tags ∧
        "international_egress" ∉ x.tags :=
      fun x hx => hclean x (List.mem_cons_of_mem h hx)
    rw [tagLatencyGo_cons] at hout
    cases i with
    | succ j =>
      rw [List.get?_cons_succ] at hin hout
      exact ihp _ j hi ho hcleant hin hout
    | zero =>
      rw [List.get?_cons_zero] at hin hout
      injection hin with hin
      subst hin
      cases havg : h.rtt_avg with
      | none =>
        rw [havg] at hout
        injection hout with hout
        subst hout
        refine ⟨?_, fun he => absurd he hcleanh.2⟩
        intro c p hc _
        cases hc
      | some c0 =>
        rw [havg] at hout
        cases prev with
        | none =>
          injection hout with hout
          subst hout
          refine ⟨?_, fun he => absurd he hcleanh.2⟩
          intro c p _ hp
          cases hp
        | some p0 =>
          dsimp only at hout
          split_ifs at hout with hd1 hd2
          · injection hout with hout
            subst hout
            refine ⟨?_, fun _ => mem_addTag_of_mem _ _ (mem_addTag_self _ _)⟩
            intro c p hc hp
            injection hc with hc
            injection hp with hp
            subst hc
            subst hp
            refine ⟨fun _ => ⟨mem_addTag_of_mem _ _ (mem_addTag_self _ _),
              mem_addTag_self _ _⟩, ?_⟩
            intro _ h120
            exact absurd hd1 (not_le.mpr h120)
          · injection hout with hout
            subst hout
            refine ⟨?_, fun _ => mem_addTag_self _ _⟩
            intro c p hc hp
            injection hc with hc
            injection hp with hp
            subst hc
            subst hp
            refine ⟨fun h120 => absurd h120 hd1, ?_⟩
            intro _ _
            refine ⟨mem_addTag_self _ _, ?_⟩
            intro he
            rcases (mem_addTag_iff _ _).mp he with hmem | heq
            · exact hcleanh.2 hmem
            · exact absurd heq (by decide)
          · injection hout with hout
            subst hout
            refine ⟨?_, fun he => absurd he hcleanh.2⟩
            intro c p hc hp
            injection hc with hc
            injection hp with hp
            subst hc
            subst hp
            refine ⟨fun h120 => ?_, fun h80 _ => absurd h80 hd2⟩
            refine absurd (le_trans ?_ h120) hd2
            unfold LATENCY_JUMP_THRESHOLD INTERNATIONAL_EGRESS_THRESHOLD
            norm_num

/-- **C7.**  In the latency pass, Δ is taken between the current hop's
mean RTT and the mean of the most recent earlier hop with a present
mean; Δ ≥ 120 ms tags both `latency_jump` and `international_egress`,
80 ms ≤ Δ < 120 ms tags `latency_jump` only, and every hop tagged
`international_egress` is also tagged `latency_jump` (the hops enter
the pass carrying classification tags only). -/
theorem c7_latency_pass (hops : List EnrichedHop)
    (hclean : ∀ h ∈ hops, "latency_jump" ∉ h.tags ∧
      "international_egress" ∉ h.tags)
    (i : ℕ) (hi ho : EnrichedHop)
    (hin : hops.get? i = some hi)
    (hout : (tagLatency hops).get? i = some ho) :
    ((∀ c p, hi.rtt_avg = some c →
      lastAvgFrom none (hops.take i) = some p →
      (INTERNATIONAL_EGRESS_THRESHOLD ≤ c - p →
        "latency_jump" ∈ ho.tags ∧ "international_egress" ∈ ho.tags) ∧
      (LATENCY_JUMP_THRESHOLD ≤ c - p →
        c - p < INTERNATIONAL_EGRESS_THRESHOLD →
        "latency_jump" ∈ ho.tags ∧ "international_egress" ∉ ho.tags)) ∧
    ("international_egress" ∈ ho.tags → "latency_jump" ∈ ho.tags)) :=
  tagLatencyGo_spec hops none i hi ho hclean hin hout

/-- Hops for the latency-pass witness: mean RTTs 10, 100 and 230 ms, so
hop 3 sees Δ = 130 ms against hop 2. -/
def hopW1 : EnrichedHop := { hop := 1, rtts := [some 10] }

def hopW2 : EnrichedHop := { hop := 2, rtts := [some 100] }

def hopW3 : EnrichedHop := { hop := 3, rtts := [some 230] }

/-- Hop 3 as the latency pass returns it. -/
def hopW3tagged : EnrichedHop :=
  { hop := 3
    rtts := [some 230]
    tags := ["latency_jump", "international_egress"] }

/-- **C7** witness: the pass applied to the three hops above tags hop 3
with both labels. -/
theorem c7_latency_pass_witness :
    "latency_jump" ∈ hopW3tagged.tags ∧
    "international_egress" ∈ hopW3tagged.tags :=
  ((c7_latency_pass [hopW1, hopW2, hopW3] (by decide) 2 hopW3 hopW3tagged
      rfl
      (by
        simp [tagLatency, tagLatencyGo_cons, hopW1, hopW2, hopW3,
          hopW3tagged, EnrichedHop.rtt_avg, rttAvgOf, addTag,
          List.filterMap_cons, LATENCY_JUMP_THRESHOLD,
          INTERNATIONAL_EGRESS_THRESHOLD]
        norm_num)).1
    230 100
    (by simp [hopW3, EnrichedHop.rtt_avg, rttAvgOf, List.filterMap_cons])
    (by simp [lastAvgFrom, hopW1, hopW2, EnrichedHop.rtt_avg,
      rttAvgOf, List.filterMap_cons])).1
    (by norm_num [INTERNATIONAL_EGRESS_THRESHOLD])

/-- A key just written by `set` is present with `_ts` = the write
time. -/
theorem lookupEntry_set_self (c : Cache) (ip : String)
    (asn : Option ASNInfo) (geo : Option GeoInfo) (ptr : Option String)
    (now : ℚ) :
    ∃ en, lookupEntry (c.set ip asn geo ptr now).data ip = some en ∧
      en.ts = now :=
  ⟨_, lookupEntry_storeEntry _ _ _, applySet_ts _ _ _ _ _⟩

/-- A present ASN sub-record implies a present valid entry. -/
theorem get_isSome_of_getAsn_isSome (c : Cache) (ip : String) (now : ℚ)
    (h : (c.getAsn ip now).isSome = true) :
    (c.get ip now).isSome = true := by
  unfold Cache.getAsn at h
  cases hg : c.get ip now with
  | some e => rfl
  | none =>
    rw [hg] at h
    simp at h

/-- The write-through block (`applyFresh`) either performs no cache
write at all — exactly when every fresh result is falsy — or leaves an
entry for the IP stamped with the current time. -/
theorem applyFresh_cache (ip : String) (e : EnrichedHop)
    (ai : Option ASNInfo) (c : Cache) (ra : Option ASNInfo)
    (rg : Option GeoInfo) (rp : Option String) (now : ℚ) :
    (ra = none ∧ rg = none ∧ strFalsy rp = true ∧
      (applyFresh ip e ai c ra rg rp now).2.2 = c) ∨
    (∃ en, lookupEntry (applyFresh ip e ai c ra rg rp now).2.2.data ip
        = some en ∧ en.ts = now) := by
  unfold applyFresh
  cases ra with
  | some a =>
    dsimp only
    cases rg with
    | some g =>
      dsimp only
      by_cases hrp : strFalsy rp = true
      · rw [if_pos hrp]
        exact Or.inr (lookupEntry_set_self _ _ _ _ _ _)
      · rw [if_neg hrp]
        exact Or.inr (lookupEntry_set_self _ _ _ _ _ _)
    | none =>
      dsimp only
      by_cases hrp : strFalsy rp = true
      · rw [if_pos hrp]
        exact Or.inr (lookupEntry_set_self _ _ _ _ _ _)
      · rw [if_neg hrp]
        exact Or.inr (lookupEntry_set_self _ _ _ _ _ _)
  | none =>
    dsimp only
    cases rg with
    | some g =>
      dsimp only
      by_cases hrp : strFalsy rp = true
      · rw [if_pos hrp]
        exact Or.inr (lookupEntry_set_self _ _ _ _ _ _)
      · rw [if_neg hrp]
        exact Or.inr (lookupEntry_set_self _ _ _ _ _ _)
    | none =>
      dsimp only
      by_cases hrp : strFalsy rp = true
      · rw [if_pos hrp]
        exact Or.inl ⟨rfl, rfl, hrp, rfl⟩
      · rw [if_neg hrp]
        exact Or.inr (lookupEntry_set_self _ _ _ _ _ _)

/-- **C5** (counterexample).  The claim says that after enriching a
public hop either the cache held a valid entry (hit) or the enrichment
wrote one (update), for every lookup outcome including total failure.
On an empty cache with all three lookups failing, the cache holds no
entry for the IP before the call and is returned unchanged: neither a
hit nor an update happened. -/
theorem c5_counterexample :
    (Cache.init none).get "8.8.8.8" 0 = none ∧
    (enrichHopSync { hop := 5, ip := some "8.8.8.8" } (Cache.init none)
        true true {} 0).2 = Cache.init none := by
  constructor
  · rfl
  · rfl

/-- **C5** (amended).  After enriching a hop whose IP classifies as
public, either the cache already held a valid entry for that IP (cache
hit), or the enrichment wrote an entry for the IP (stamped with the
current time), or every fresh lookup that was needed returned a falsy
result and the cache is left unchanged. -/
theorem c5_public_hop_cache_hit_or_update (hop : HopResult) (c : Cache)
    (enablePtr enableGeo : Bool) (fresh : LookupResults) (now : ℚ)
    (ip : String) (hip : hop.ip = some ip)
    (hpub : classify ip = IPType.PUBLIC) :
    (c.get ip now).isSome = true ∨
    (∃ en, lookupEntry
        (enrichHopSync hop c enablePtr enableGeo fresh now).2.data ip
        = some en ∧ en.ts = now) ∨
    ((enrichHopSync hop c enablePtr enableGeo fresh now).2 = c ∧
      (c.getAsn ip now = none → fresh.asn = none) ∧
      (enableGeo = true → c.getGeo ip now = none → fresh.geo = none) ∧
      (enablePtr = true → strFalsy (c.getPtr ip now) = true →
        strFalsy fresh.ptr = true)) := by
  have hne : ip.isEmpty = false := by
    cases hb : ip.isEmpty with
    | false => rfl
    | true =>
      unfold classify at hpub
      rw [if_pos hb] at hpub
      simp at hpub
  have htag : getTag ip = none := by
    unfold getTag
    rw [hpub]
  have hse : shouldEnrich ip = true := by
    unfold shouldEnrich
    rw [hpub]
    rfl
  unfold enrichHopSync
  rw [hip]
  dsimp only
  rw [if_neg (show ¬ip.isEmpty = true by simp [hne]), htag]
  try dsimp only
  rw [if_neg (show ¬¬shouldEnrich ip = true by simp [hse])]
  try dsimp only
  by_cases hall :
      ¬(c.getAsn ip now).isNone = true ∧
      ¬(enableGeo &&
          (if enableGeo = true then c.getGeo ip now else none).isNone)
        = true ∧
      ¬(enablePtr &&
          strFalsy (if enablePtr = true then c.getPtr ip now else none))
        = true
  · rw [if_pos hall]
    left
    refine get_isSome_of_getAsn_isSome c ip now ?_
    cases hga : c.getAsn ip now with
    | some a => rfl
    | none =>
      have h1 := hall.1
      rw [hga] at h1
      exact absurd rfl h1
  · rw [if_neg hall]
    rcases applyFresh_cache ip
        (applyCached
          { hop := hop.hop
            ip := some ip
            rtts := hop.rtts
            ip_type := some (classify ip).value
            reached_target := hop.reached_target }
          (c.getAsn ip now)
          (if enableGeo = true then c.getGeo ip now else none)
          (if enablePtr = true then c.getPtr ip now else none))
        (c.getAsn ip now) c
        (if (c.getAsn ip now).isNone = true then fresh.asn else none)
        (if (enableGeo &&
              (if enableGeo = true then c.getGeo ip now else none).isNone)
            = true then fresh.geo else none)
        (if (enablePtr &&
              strFalsy (if enablePtr = true then c.getPtr ip now else none))
            = true then fresh.ptr else none)
        now with ⟨hra, hrg, hrp, hcache⟩ | hw
    · right; right
      refine ⟨hcache, ?_, ?_, ?_⟩
      · intro hga
        rw [hga] at hra
        simpa using hra
      · intro hge hgg
        rw [hge, hgg] at hrg
        simpa using hrg
      · intro hpe hpp
        simp only [hpe, if_true] at hrp
        rw [hpp] at hrp
        simpa using hrp
    · right; left
      exact hw

/-- **C5** witness: the amended disjunction evaluated on an empty
cache, a public hop IP, and lookups that all fail. -/
theorem c5_public_hop_cache_witness :
    ((Cache.init none).get "8.8.8.8" 0).isSome = true ∨
    (∃ en, lookupEntry
        (enrichHopSync { hop := 5, ip := some "8.8.8.8" }
          (Cache.init none) true true {} 0).2.data "8.8.8.8"
        = some en ∧ en.ts = 0) ∨
    ((enrichHopSync { hop := 5, ip := some "8.8.8.8" }
        (Cache.init none) true true {} 0).2 = Cache.init none ∧
      ((Cache.init none).getAsn "8.8.8.8" 0 = none →
        ({} : LookupResults).asn = none) ∧
      (true = true → (Cache.init none).getGeo "8.8.8.8" 0 = none →
        ({} : LookupResults).geo = none) ∧
      (true = true → strFalsy ((Cache.init none).getPtr "8.8.8.8" 0) = true →
        strFalsy ({} : LookupResults).ptr = true)) :=
  c5_public_hop_cache_hit_or_update { hop := 5, ip := some "8.8.8.8" }
    (Cache.init none) true true {} 0 "8.8.8.8" rfl (by decide)

end TraceLens
